import Mathlib

/-
  Verification of the swarmhost-core library: cryptographic identity
  subsystem (crypto/mod.rs), node session guard (node/mod.rs) and
  configuration validation (node/config.rs), shallowly embedded in Lean.
  Bytes are Nat values below 256; byte buffers are List Nat.
-/

namespace Swarmhost

/-! ## Blake2s-256 digest

Modelled from the spec: the external blake2 crate (type Blake2s256) used by
crypto/mod.rs is not part of this repository; the spec describes it as a
collision-resistant 32-byte content digest with a streaming update API whose
result on the accumulated input equals the one-shot digest. We implement the
Blake2s-256 function itself (RFC 7693, the algorithm that crate computes)
over Nat words reduced modulo 2^32, and model the streaming hasher state as
the list of bytes fed to it so far. -/

def M32 : Nat := 4294967296

def add32 (x y : Nat) : Nat := (x + y) % M32

def rotr32 (x n : Nat) : Nat :=
  Nat.lor (x >>> n) ((x <<< (32 - n)) % M32)

/-- Blake2s initialization vector (RFC 7693 section 2.6). -/
def blakeIV : List Nat :=
  [0x6A09E667, 0xBB67AE85, 0x3C6EF372, 0xA54FF53A,
   0x510E527F, 0x9B05688C, 0x1F83D9AB, 0x5BE0CD19]

/-- Message schedule permutations (RFC 7693 section 2.7). -/
def blakeSigma : List (List Nat) :=
  [[0, 1, 2, 3, 4, 5, 6, 7, 8, 9, 10, 11, 12, 13, 14, 15],
   [14, 10, 4, 8, 9, 15, 13, 6, 1, 12, 0, 2, 11, 7, 5, 3],
   [11, 8, 12, 0, 5, 2, 15, 13, 10, 14, 3, 6, 7, 1, 9, 4],
   [7, 9, 3, 1, 13, 12, 11, 14, 2, 6, 5, 10, 4, 0, 15, 8],
   [9, 0, 5, 7, 2, 4, 10, 15, 14, 1, 11, 12, 6, 8, 3, 13],
   [2, 12, 6, 10, 0, 11, 8, 3, 4, 13, 7, 5, 15, 14, 1, 9],
   [12, 5, 1, 15, 14, 13, 4, 10, 0, 7, 6, 3, 9, 2, 8, 11],
   [13, 11, 7, 14, 12, 1, 3, 9, 5, 0, 15, 4, 8, 6, 2, 10],
   [6, 15, 14, 9, 11, 3, 0, 8, 12, 2, 13, 7, 1, 4, 10, 5],
   [10, 2, 8, 4, 7, 6, 1, 5, 15, 11, 9, 14, 3, 12, 13, 0]]

/-- Blake2s mixing function G (RFC 7693 section 3.1) acting on the
16-word work vector at indices a b c d with message words x y. -/
def blakeG (v : List Nat) (a b c d x y : Nat) : List Nat :=
  let va1 := add32 (add32 (v.getD a 0) (v.getD b 0)) x
  let vd1 := rotr32 (Nat.xor (v.getD d 0) va1) 16
  let vc1 := add32 (v.getD c 0) vd1
  let vb1 := rotr32 (Nat.xor (v.getD b 0) vc1) 12
  let va2 := add32 (add32 va1 vb1) y
  let vd2 := rotr32 (Nat.xor vd1 va2) 8
  let vc2 := add32 vc1 vd2
  let vb2 := rotr32 (Nat.xor vb1 vc2) 7
  ((((v.set a va2).set b vb2).set c vc2).set d vd2)

/-- One round of the Blake2s compression function: eight applications
of G scheduled by the round permutation s over message words m. -/
def blakeRound (m v s : List Nat) : List Nat :=
  let mi := fun i => m.getD (s.getD i 0) 0
  let v1 := blakeG v 0 4 8 12 (mi 0) (mi 1)
  let v2 := blakeG v1 1 5 9 13 (mi 2) (mi 3)
  let v3 := blakeG v2 2 6 10 14 (mi 4) (mi 5)
  let v4 := blakeG v3 3 7 11 15 (mi 6) (mi 7)
  let v5 := blakeG v4 0 5 10 15 (mi 8) (mi 9)
  let v6 := blakeG v5 1 6 11 12 (mi 10) (mi 11)
  let v7 := blakeG v6 2 7 8 13 (mi 12) (mi 13)
  blakeG v7 3 4 9 14 (mi 14) (mi 15)

/-- Little-endian 32-bit words from a byte list. -/
def toWords : List Nat → List Nat
  | b0 :: b1 :: b2 :: b3 :: rest =>
      (b0 + 256 * b1 + 65536 * b2 + 16777216 * b3) :: toWords rest
  | _ => []

/-- Blake2s compression function F (RFC 7693 section 3.2): state h,
64-byte block, byte counter t, final-block flag. -/
def blakeCompress (h block : List Nat) (t : Nat) (last : Bool) : List Nat :=
  let m := toWords block
  let v0 := h ++ blakeIV
  let v1 := v0.set 12 (Nat.xor (v0.getD 12 0) (t % M32))
  let v2 := v1.set 13 (Nat.xor (v1.getD 13 0) ((t / M32) % M32))
  let v3 := if last then v2.set 14 (Nat.xor (v2.getD 14 0) 4294967295) else v2
  let vf := blakeSigma.foldl (blakeRound m) v3
  (List.range 8).map (fun i => Nat.xor (h.getD i 0) (Nat.xor (vf.getD i 0) (vf.getD (i + 8) 0)))

/-- Initial state for Blake2s-256 with no key: IV with the parameter
block (digest length 32, fanout 1, depth 1) folded into word 0. -/
def blakeH0 : List Nat := blakeIV.set 0 (Nat.xor 0x6A09E667 0x01010020)

/-- Pad a block to 64 bytes with zeros. -/
def pad64 (b : List Nat) : List Nat := b ++ List.replicate (64 - b.length) 0

/-- Split a byte list into n leading 64-byte chunks followed by a final
chunk of at most 64 bytes. -/
def toChunksAux : Nat → List Nat → List (List Nat)
  | 0, l => [l]
  | n + 1, l => l.take 64 :: toChunksAux n (l.drop 64)

/-- Split a byte list into 64-byte chunks; the last chunk holds the
remaining at most 64 bytes, and an empty input yields one empty chunk. -/
def toChunks (l : List Nat) : List (List Nat) := toChunksAux ((l.length - 1) / 64) l

/-- Run the compression function over the chunks, threading the byte
counter t; the final chunk is compressed with the final-block flag. -/
def blakeCompressChunks (h : List Nat) (t : Nat) : List (List Nat) → List Nat
  | [] => h
  | [b] => blakeCompress h (pad64 b) (t + b.length) true
  | b :: rest => blakeCompressChunks (blakeCompress h (pad64 b) (t + b.length) false) (t + b.length) rest

/-- Little-endian bytes of a 32-bit word. -/
def wordToBytes (w : Nat) : List Nat :=
  [w % 256, (w / 256) % 256, (w / 65536) % 256, (w / 16777216) % 256]

/-- Blake2s-256 digest of a byte list, as 32 bytes. -/
def blake2s256 (data : List Nat) : List Nat :=
  ((blakeCompressChunks blakeH0 0 (toChunks data)).map wordToBytes).flatten

/-! ## Streaming hasher state

Modelled from the spec: the blake2 crate hasher object (Blake2s256::new,
update, finalize) is external to this repository; its observable behavior is
that finalize digests all bytes fed by updates, in order, so the hasher
state is modelled as the accumulated byte list. -/

def Blake2sState := List Nat

def Blake2sState.new : Blake2sState := []

def Blake2sState.update (st : Blake2sState) (data : List Nat) : Blake2sState :=
  List.append st data

def Blake2sState.finalize (st : Blake2sState) : List Nat := blake2s256 st

/-! ## Hash wrappers from crypto/mod.rs -/

/-- Translation of the free function hash in crypto/mod.rs: feed the data
to a fresh Blake2s hasher and finalize. -/
def hash (data : List Nat) : List Nat :=
  (Blake2sState.new.update data).finalize

/-- Translation of the free function hash_multiple in crypto/mod.rs: feed
each piece in order to a fresh Blake2s hasher and finalize. -/
def hash_multiple (data_pieces : List (List Nat)) : List Nat :=
  (data_pieces.foldl Blake2sState.update Blake2sState.new).finalize

/-! ## Error type from error.rs

Translation of the SwarmhostError enum; the io error payload of Network is
modelled as its message string. -/

inductive SwarmhostError where
  | Network : String → SwarmhostError
  | Consensus : String → SwarmhostError
  | Validation : String → SwarmhostError
  | Crypto : String → SwarmhostError
  | Serialization : String → SwarmhostError
  | Node : String → SwarmhostError
  | Timeout : String → SwarmhostError
  | InvalidState : String → SwarmhostError
  | Peer : String → SwarmhostError
  | Config : String → SwarmhostError
deriving DecidableEq, Repr

/-! ## Ed25519 signature scheme

Modelled from the spec: the ed25519 scheme (SigningKey, VerifyingKey,
Signature of the external ed25519-dalek crate) is not part of this
repository. The spec states that the public key is the deterministic
derivation of the 32 private bytes, that a signature is bound to exactly
one (message, public key) pair at verification time, and that the scheme
accepts all 32-byte private values. We idealize it accordingly: a signature
is the byte encoding of its public key (32 bytes) followed by the exact
message, so verification succeeds on precisely that (message, key) pair. -/

def derive_public (priv : List Nat) : List Nat :=
  priv.map (fun b => (b + 1) % 256)

/-- Modelled from the spec: producing the signature bytes for a message
under the key derived from the private bytes. -/
def schemeSign (priv msg : List Nat) : List Nat :=
  List.append (derive_public priv) msg

/-- Modelled from the spec: parsing signature bytes, recovering the bound
public key and message; fails on bytes too short to decompose. -/
def Signature.from_slice (s : List Nat) : Except String (List Nat × List Nat) :=
  if 32 ≤ s.length then Except.ok (s.take 32, s.drop 32)
  else Except.error "signature length invalid"

/-- Modelled from the spec: checking verifying-key bytes for structural
validity, here just the 32-byte length. -/
def VerifyingKey.from_bytes (pk : List Nat) : Except String (List Nat) :=
  if pk.length = 32 then Except.ok pk else Except.error "key length invalid"

/-- Modelled from the spec: verification against a parsed signature
succeeds exactly when the signature is bound to this key and message. -/
def schemeVerify (pk msg : List Nat) (sig : List Nat × List Nat) : Except String Unit :=
  if sig.1 = pk ∧ sig.2 = msg then Except.ok ()
  else Except.error "signature mismatch"

/-! ## KeyPair from crypto/mod.rs -/

/-- Translation of the KeyPair struct: a signing key (its 32 private
bytes) together with the verifying key derived from it. -/
structure KeyPair where
  signing_key : List Nat
  verifying_key : List Nat
deriving DecidableEq, Repr

/-- Well-formedness maintained by every KeyPair constructor in the source
(generate and from_bytes): the verifying key is derived from the signing
key, and the signing key has the 32 bytes its Rust type fixes. -/
def KeyPair.wf (kp : KeyPair) : Prop :=
  kp.signing_key.length = 32 ∧ kp.verifying_key = derive_public kp.signing_key

instance (kp : KeyPair) : Decidable kp.wf := by
  unfold KeyPair.wf; infer_instance

/-- Translation of KeyPair::generate, with the random 32 secret bytes
supplied as a parameter. -/
def KeyPair.generate (secret_bytes : List Nat) : KeyPair :=
  { signing_key := secret_bytes, verifying_key := derive_public secret_bytes }

/-- Translation of KeyPair::from_bytes: builds the signing key from the
given 32 bytes, derives the verifying key, and always returns Ok. -/
def KeyPair.from_bytes (bytes : List Nat) : Except SwarmhostError KeyPair :=
  Except.ok { signing_key := bytes, verifying_key := derive_public bytes }

/-- Translation of KeyPair::public_key. -/
def KeyPair.public_key (kp : KeyPair) : List Nat := kp.verifying_key

/-- Translation of KeyPair::private_key. -/
def KeyPair.private_key (kp : KeyPair) : List Nat := kp.signing_key

/-- Translation of KeyPair::sign. -/
def KeyPair.sign (kp : KeyPair) (message : List Nat) : List Nat :=
  schemeSign kp.signing_key message

/-- Translation of KeyPair::verify: parse the signature bytes (Crypto
error on failure), then verify against this verifying key. -/
def KeyPair.verify (kp : KeyPair) (message signature : List Nat) : Except SwarmhostError Unit :=
  match Signature.from_slice signature with
  | Except.error e => Except.error (SwarmhostError.Crypto (String.append "Invalid signature: " e))
  | Except.ok sig =>
    match schemeVerify kp.verifying_key message sig with
    | Except.error e => Except.error (SwarmhostError.Crypto (String.append "Verification failed: " e))
    | Except.ok () => Except.ok ()

/-- Translation of the free function verify_signature: parse the public
key, parse the signature, then verify. -/
def verify_signature (public_key message signature : List Nat) : Except SwarmhostError Unit :=
  match VerifyingKey.from_bytes public_key with
  | Except.error e => Except.error (SwarmhostError.Crypto (String.append "Invalid public key: " e))
  | Except.ok vk =>
    match Signature.from_slice signature with
    | Except.error e => Except.error (SwarmhostError.Crypto (String.append "Invalid signature: " e))
    | Except.ok sig =>
      match schemeVerify vk message sig with
      | Except.error e => Except.error (SwarmhostError.Crypto (String.append "Verification failed: " e))
      | Except.ok () => Except.ok ()

/-! ## Configuration from node/config.rs

Durations are embedded as their whole-second counts, matching the config
serialization helper; the u32 and usize fields carry only the comparisons
with zero and each other that validate performs, so they are embedded as
Nat. -/

/-- Translation of the ConsensusConfig struct. -/
structure ConsensusConfig where
  quorum_numerator : Nat
  quorum_denominator : Nat
  optimistic_execution : Bool
  consensus_timeout_secs : Nat
  max_concurrent_validations : Nat
deriving DecidableEq, Repr

/-- Translation of the NetworkConfig struct. -/
structure NetworkConfig where
  max_peers : Nat
  heartbeat_interval_secs : Nat
  peer_timeout_secs : Nat
  max_message_size : Nat
  enable_compression : Bool
deriving DecidableEq, Repr

/-- Translation of the StateConfig struct. -/
structure StateConfig where
  snapshot_interval : Nat
  max_snapshots_in_memory : Nat
  max_action_log_size : Nat
deriving DecidableEq, Repr

/-- Translation of the NodeConfig struct. -/
structure NodeConfig where
  keypair : Option KeyPair
  bootstrap_server : Option String
  listen_port : Nat
  consensus : ConsensusConfig
  network : NetworkConfig
  state : StateConfig
deriving DecidableEq, Repr

/-- Translation of the Default impl for ConsensusConfig. -/
def ConsensusConfig.default : ConsensusConfig :=
  { quorum_numerator := 2
    quorum_denominator := 3
    optimistic_execution := true
    consensus_timeout_secs := 5
    max_concurrent_validations := 100 }

/-- Translation of the Default impl for NetworkConfig. -/
def NetworkConfig.default : NetworkConfig :=
  { max_peers := 50
    heartbeat_interval_secs := 10
    peer_timeout_secs := 30
    max_message_size := 1048576
    enable_compression := true }

/-- Translation of the Default impl for StateConfig. -/
def StateConfig.default : StateConfig :=
  { snapshot_interval := 100
    max_snapshots_in_memory := 10
    max_action_log_size := 1000 }

/-- Translation of the derived Default impl for NodeConfig: every Option
field defaults to None, the port to 0, nested groups to their defaults. -/
def NodeConfig.default : NodeConfig :=
  { keypair := none
    bootstrap_server := none
    listen_port := 0
    consensus := ConsensusConfig.default
    network := NetworkConfig.default
    state := StateConfig.default }

/-- Translation of NodeConfig::new, with the generated keypair secret
bytes supplied as a parameter. -/
def NodeConfig.new (secret_bytes : List Nat) : NodeConfig :=
  { NodeConfig.default with keypair := some (KeyPair.generate secret_bytes) }

/-- Translation of NodeConfig::with_keypair. -/
def NodeConfig.with_keypair (kp : KeyPair) : NodeConfig :=
  { NodeConfig.default with keypair := some kp }

/-- Translation of NodeConfig::player_id. -/
def NodeConfig.player_id (c : NodeConfig) : Option (List Nat) :=
  c.keypair.map KeyPair.public_key

/-- Translation of NodeConfig::validate: the four checks in source
order, each returning its source error string. -/
def NodeConfig.validate (c : NodeConfig) : Except String Unit :=
  if c.keypair.isNone then
    Except.error "Keypair must be set"
  else if c.consensus.quorum_numerator = 0 ∨ c.consensus.quorum_denominator = 0 then
    Except.error "Quorum fraction cannot have zero denominator/numerator"
  else if c.consensus.quorum_denominator < c.consensus.quorum_numerator then
    Except.error "Quorum numerator cannot exceed denominator"
  else if c.network.max_message_size = 0 then
    Except.error "Max message size must be > 0"
  else
    Except.ok ()

/-! ## Node from node/mod.rs

The NodeState record lives behind a tokio RwLock; each operation is one
short critical section, so operations are embedded as pure functions from
the locked record to a result together with the record they leave behind.
Operations that take only the read lock return the record unchanged by
construction, mirroring that a shared guard cannot mutate. -/

/-- Translation of the NodeState struct. -/
structure NodeState where
  player_id : List Nat
  is_running : Bool
  connected_peers : List (List Nat)
deriving DecidableEq, Repr

/-- Translation of the SwarmhostNode struct. -/
structure SwarmhostNode where
  config : NodeConfig
  state : NodeState
deriving DecidableEq, Repr

/-- Translation of SwarmhostNode::new: validate the config (Config error
on failure), take the player id (Config error when absent), and build the
initial state with the running flag down and no peers. -/
def SwarmhostNode.new (config : NodeConfig) : Except SwarmhostError SwarmhostNode :=
  match config.validate with
  | Except.error e => Except.error (SwarmhostError.Config e)
  | Except.ok () =>
    match config.player_id with
    | none => Except.error (SwarmhostError.Config "No keypair set")
    | some pid =>
      Except.ok { config := config
                  state := { player_id := pid, is_running := false, connected_peers := [] } }

/-- Translation of SwarmhostNode::player_id: read lock, return the id. -/
def SwarmhostNode.player_id (s : NodeState) : List Nat := s.player_id

/-- Translation of SwarmhostNode::start: write lock; fail if already
running, otherwise raise the running flag. -/
def SwarmhostNode.start (s : NodeState) : Except SwarmhostError Unit × NodeState :=
  if s.is_running then
    (Except.error (SwarmhostError.Node "Node already running"), s)
  else
    (Except.ok (), { s with is_running := true })

/-- Translation of SwarmhostNode::stop: write lock; no-op if not
running, otherwise clear the running flag and the connected peers. -/
def SwarmhostNode.stop (s : NodeState) : Except SwarmhostError Unit × NodeState :=
  if s.is_running then
    (Except.ok (), { s with is_running := false, connected_peers := [] })
  else
    (Except.ok (), s)

/-- Translation of SwarmhostNode::is_running. -/
def SwarmhostNode.is_running (s : NodeState) : Bool := s.is_running

/-- Translation of SwarmhostNode::peer_count. -/
def SwarmhostNode.peer_count (s : NodeState) : Nat := s.connected_peers.length

/-- Translation of SwarmhostNode::join_game: read lock; fail when not
running, otherwise succeed with no further checks. -/
def SwarmhostNode.join_game (s : NodeState) (game_id : String) : Except SwarmhostError Unit × NodeState :=
  if s.is_running then (Except.ok (), s)
  else (Except.error (SwarmhostError.Node "Node not running"), s)

/-- Translation of SwarmhostNode::submit_action: read lock; fail when
not running, otherwise succeed with no further checks. -/
def SwarmhostNode.submit_action (s : NodeState) (action_type : Nat) (action_data : List Nat) :
    Except SwarmhostError Unit × NodeState :=
  if s.is_running then (Except.ok (), s)
  else (Except.error (SwarmhostError.Node "Node not running"), s)

/-- States reachable from a freshly constructed node by any sequence of
the public operations; the pure accessors player_id, is_running and
peer_count take the read lock and return the record unchanged, so only
construction and the four Result-returning operations appear. -/
inductive ReachableState : NodeState → Prop where
  | init : ∀ cfg node, SwarmhostNode.new cfg = Except.ok node → ReachableState node.state
  | start : ∀ s, ReachableState s → ReachableState (SwarmhostNode.start s).2
  | stop : ∀ s, ReachableState s → ReachableState (SwarmhostNode.stop s).2
  | join : ∀ s g, ReachableState s → ReachableState (SwarmhostNode.join_game s g).2
  | submit : ∀ s a d, ReachableState s → ReachableState (SwarmhostNode.submit_action s a d).2

/-! ## Sample values used by witness theorems -/

/-- Sample 32-byte secret. -/
def sampleSecret : List Nat := List.replicate 32 7

/-- Sample stopped node state. -/
def sampleStopped : NodeState :=
  { player_id := derive_public sampleSecret, is_running := false, connected_peers := [] }

/-- Sample running node state. -/
def sampleRunning : NodeState :=
  { player_id := derive_public sampleSecret, is_running := true, connected_peers := [] }

/-! ## Theorems for the claims -/

/-- C2: start from a non-running state succeeds and sets the running
flag; start on a running state fails with the Node error about already
running and leaves the whole state (running flag and connected-peer list
included) unchanged; hence a second start after a successful one, before
any stop, always fails with that error. -/
theorem start_lifecycle (s : NodeState) :
    (s.is_running = false →
      SwarmhostNode.start s = (Except.ok (), { s with is_running := true })) ∧
    (s.is_running = true →
      SwarmhostNode.start s = (Except.error (SwarmhostError.Node "Node already running"), s)) ∧
    (s.is_running = false →
      (SwarmhostNode.start (SwarmhostNode.start s).2).1 =
        Except.error (SwarmhostError.Node "Node already running")) := by
  cases h : s.is_running <;> simp [SwarmhostNode.start, h]

/-- Witness for C2 at a concrete stopped state. -/
theorem start_lifecycle_witness :
    SwarmhostNode.start sampleStopped =
      (Except.ok (), { sampleStopped with is_running := true }) ∧
    (SwarmhostNode.start (SwarmhostNode.start sampleStopped).2).1 =
      Except.error (SwarmhostError.Node "Node already running") :=
  ⟨(start_lifecycle sampleStopped).1 rfl, (start_lifecycle sampleStopped).2.2 rfl⟩

/-- C3: stop on a running state succeeds, clears the running flag and
empties the connected-peer list so that peer_count is 0 afterwards; stop
on a stopped state succeeds leaving the state unchanged; stop never fails
and is idempotent. -/
theorem stop_clears_peers_idempotent (s : NodeState) :
    (s.is_running = true →
      SwarmhostNode.stop s =
        (Except.ok (), { s with is_running := false, connected_peers := [] }) ∧
      SwarmhostNode.peer_count (SwarmhostNode.stop s).2 = 0) ∧
    (s.is_running = false → SwarmhostNode.stop s = (Except.ok (), s)) ∧
    (SwarmhostNode.stop s).1 = Except.ok () ∧
    SwarmhostNode.stop (SwarmhostNode.stop s).2 = (Except.ok (), (SwarmhostNode.stop s).2) := by
  cases h : s.is_running <;>
    simp [SwarmhostNode.stop, SwarmhostNode.peer_count, h]

/-- Witness for C3 at a concrete running state with a nonempty peer list. -/
theorem stop_clears_peers_idempotent_witness :
    SwarmhostNode.stop { sampleRunning with connected_peers := [sampleSecret] } =
      (Except.ok (), { sampleRunning with is_running := false, connected_peers := [] }) ∧
    SwarmhostNode.peer_count
      (SwarmhostNode.stop { sampleRunning with connected_peers := [sampleSecret] }).2 = 0 :=
  ⟨((stop_clears_peers_idempotent { sampleRunning with connected_peers := [sampleSecret] }).1 rfl).1,
   ((stop_clears_peers_idempotent { sampleRunning with connected_peers := [sampleSecret] }).1 rfl).2⟩

/-- C4: for every state, game id, action type and payload, join_game and
submit_action fail with the Node error about not running exactly when the
node is not running, succeed unconditionally when it is running, and in
both cases leave the state unchanged. -/
theorem guarded_entry_points (s : NodeState) (g : String) (a : Nat) (d : List Nat) :
    (s.is_running = false →
      SwarmhostNode.join_game s g = (Except.error (SwarmhostError.Node "Node not running"), s) ∧
      SwarmhostNode.submit_action s a d =
        (Except.error (SwarmhostError.Node "Node not running"), s)) ∧
    (s.is_running = true →
      SwarmhostNode.join_game s g = (Except.ok (), s) ∧
      SwarmhostNode.submit_action s a d = (Except.ok (), s)) := by
  cases h : s.is_running <;>
    simp [SwarmhostNode.join_game, SwarmhostNode.submit_action, h]

/-- Witness for C4 at concrete stopped and running states. -/
theorem guarded_entry_points_witness :
    SwarmhostNode.join_game sampleStopped "game-1" =
      (Except.error (SwarmhostError.Node "Node not running"), sampleStopped) ∧
    SwarmhostNode.submit_action sampleRunning 1 [116, 101, 115, 116] =
      (Except.ok (), sampleRunning) :=
  ⟨((guarded_entry_points sampleStopped "game-1" 1 [116, 101, 115, 116]).1 rfl).1,
   ((guarded_entry_points sampleRunning "game-1" 1 [116, 101, 115, 116]).2 rfl).2⟩

/-- C5: validate succeeds exactly when a keypair is present, neither
quorum numerator nor denominator is zero, the numerator does not exceed
the denominator, and the maximum message size is nonzero; and the default
configuration completed with a generated keypair (quorum 2 over 3,
optimistic execution on) passes validation. -/
theorem validate_characterization (c : NodeConfig) (secret : List Nat) :
    (c.validate = Except.ok () ↔
      (c.keypair ≠ none ∧ c.consensus.quorum_numerator ≠ 0 ∧
       c.consensus.quorum_denominator ≠ 0 ∧
       c.consensus.quorum_numerator ≤ c.consensus.quorum_denominator ∧
       c.network.max_message_size ≠ 0)) ∧
    ((NodeConfig.new secret).validate = Except.ok () ∧
     (NodeConfig.new secret).consensus.quorum_numerator = 2 ∧
     (NodeConfig.new secret).consensus.quorum_denominator = 3 ∧
     (NodeConfig.new secret).consensus.optimistic_execution = true) := by
  refine ⟨?_, by simp [NodeConfig.new, NodeConfig.default, NodeConfig.validate,
    ConsensusConfig.default, NetworkConfig.default], rfl, rfl, rfl⟩
  unfold NodeConfig.validate
  split_ifs with h1 h2 h3 h4 <;>
    simp_all [Option.isNone_iff_eq_none] <;> omega

/-- Witness for C5 at the configuration built from a concrete secret:
validation passes and the default quorum and optimistic-execution values
are in place; a keypair-free variant falls outside the passing side of
the characterization. -/
theorem validate_characterization_witness :
    (NodeConfig.new sampleSecret).validate = Except.ok () ∧
    (NodeConfig.new sampleSecret).consensus.quorum_numerator = 2 ∧
    (NodeConfig.new sampleSecret).consensus.quorum_denominator = 3 ∧
    (NodeConfig.new sampleSecret).consensus.optimistic_execution = true ∧
    NodeConfig.default.validate ≠ Except.ok () :=
  ⟨(validate_characterization NodeConfig.default sampleSecret).2.1,
   (validate_characterization NodeConfig.default sampleSecret).2.2.1,
   (validate_characterization NodeConfig.default sampleSecret).2.2.2.1,
   (validate_characterization NodeConfig.default sampleSecret).2.2.2.2,
   fun hok => by
     have h := (validate_characterization NodeConfig.default sampleSecret).1.mp hok
     exact h.1 rfl⟩

/-- C9: construction fails with a Config error carrying the validation
message about the missing keypair whenever the configuration has none;
and whenever validation succeeds, construction succeeds with the node
initially not running, with no connected peers, holding the given
configuration. -/
theorem new_requires_keypair (config : NodeConfig) :
    (config.keypair = none →
      config.validate = Except.error "Keypair must be set" ∧
      SwarmhostNode.new config = Except.error (SwarmhostError.Config "Keypair must be set")) ∧
    (config.validate = Except.ok () →
      ∃ node, SwarmhostNode.new config = Except.ok node ∧
        node.state.is_running = false ∧ node.state.connected_peers = [] ∧
        node.config = config) := by
  constructor
  · intro hnone
    have hv : config.validate = Except.error "Keypair must be set" := by
      unfold NodeConfig.validate
      simp [hnone]
    exact ⟨hv, by unfold SwarmhostNode.new; rw [hv]⟩
  · intro hok
    have hkp : config.keypair ≠ none := by
      intro hnone
      unfold NodeConfig.validate at hok
      simp [hnone] at hok
    obtain ⟨kp, hkp⟩ := Option.ne_none_iff_exists.mp hkp
    refine ⟨{ config := config
              state := { player_id := kp.public_key, is_running := false,
                         connected_peers := [] } }, ?_, rfl, rfl, rfl⟩
    unfold SwarmhostNode.new
    rw [hok]
    simp [NodeConfig.player_id, ← hkp]

/-- Witness for C9 at a configuration with no keypair and at one that
validates. -/
theorem new_requires_keypair_witness :
    SwarmhostNode.new NodeConfig.default =
      Except.error (SwarmhostError.Config "Keypair must be set") ∧
    ∃ node, SwarmhostNode.new (NodeConfig.new sampleSecret) = Except.ok node ∧
      node.state.is_running = false :=
  ⟨((new_requires_keypair NodeConfig.default).1 rfl).2,
   match (new_requires_keypair (NodeConfig.new sampleSecret)).2 (by rfl) with
   | ⟨node, hok, hrun, _, _⟩ => ⟨node, hok, hrun⟩⟩

/-- C10: in every node state reachable through the public operations the
connected-peer list is empty, so peer_count returns 0; no exposed
operation ever adds a peer. -/
theorem reachable_peers_empty (s : NodeState) (h : ReachableState s) :
    s.connected_peers = [] ∧ SwarmhostNode.peer_count s = 0 := by
  have hempty : s.connected_peers = [] := by
    induction h with
    | init cfg node hnew =>
      unfold SwarmhostNode.new at hnew
      rcases hv : cfg.validate with e | u
      · rw [hv] at hnew; cases hnew
      · rw [hv] at hnew
        rcases hp : cfg.player_id with _ | pid
        · rw [hp] at hnew; cases hnew
        · rw [hp] at hnew
          cases hnew
          rfl
    | start s hs ih =>
      cases hr : s.is_running <;> simp_all [SwarmhostNode.start]
    | stop s hs ih =>
      cases hr : s.is_running <;> simp_all [SwarmhostNode.stop]
    | join s g hs ih =>
      cases hr : s.is_running <;> simp_all [SwarmhostNode.join_game]
    | submit s a d hs ih =>
      cases hr : s.is_running <;> simp_all [SwarmhostNode.submit_action]
  exact ⟨hempty, by simp [SwarmhostNode.peer_count, hempty]⟩

/-- Witness for C10 at the state of a concretely constructed node. -/
theorem reachable_peers_empty_witness :
    sampleStopped.connected_peers = [] ∧ SwarmhostNode.peer_count sampleStopped = 0 :=
  reachable_peers_empty sampleStopped
    (ReachableState.init (NodeConfig.new sampleSecret)
      { config := NodeConfig.new sampleSecret, state := sampleStopped } (by rfl))

/-- Derivation of the public key preserves the byte length. -/
theorem derive_public_length (priv : List Nat) :
    (derive_public priv).length = priv.length := by
  simp [derive_public]

/-- C1: for every well-formed keypair, verifying a message against its
own signature succeeds, stateless verification against the keypair's
public key succeeds as well, and verifying any different message against
that signature fails with a Crypto error. -/
theorem sign_verify_round_trip (kp : KeyPair) (m m' : List Nat)
    (hwf : kp.wf) (hne : m' ≠ m) :
    kp.verify m (kp.sign m) = Except.ok () ∧
    verify_signature kp.public_key m (kp.sign m) = Except.ok () ∧
    kp.verify m' (kp.sign m) =
      Except.error (SwarmhostError.Crypto "Verification failed: signature mismatch") := by
  obtain ⟨hlen, hder⟩ := hwf
  have hvklen : kp.verifying_key.length = 32 := by
    rw [hder, derive_public_length, hlen]
  have hsign : kp.sign m = kp.verifying_key ++ m := by
    simp [KeyPair.sign, schemeSign, hder]
  have hparse : Signature.from_slice (kp.verifying_key ++ m) =
      Except.ok (kp.verifying_key, m) := by
    unfold Signature.from_slice
    rw [if_pos (by simp [hvklen]), List.take_left' hvklen, List.drop_left' hvklen]
  refine ⟨?_, ?_, ?_⟩
  · unfold KeyPair.verify
    rw [hsign, hparse]
    simp [schemeVerify]
  · unfold verify_signature
    have hpk : VerifyingKey.from_bytes kp.public_key = Except.ok kp.verifying_key := by
      unfold VerifyingKey.from_bytes KeyPair.public_key
      rw [if_pos hvklen]
    rw [hpk, hsign, hparse]
    simp [schemeVerify]
  · unfold KeyPair.verify
    rw [hsign, hparse]
    have hmm : m ≠ m' := fun h => hne h.symm
    simp [schemeVerify, hmm]
    rfl

/-- Witness for C1 at a concrete keypair and two distinct messages. -/
theorem sign_verify_round_trip_witness :
    (KeyPair.generate (List.replicate 32 1)).verify [1, 2, 3]
      ((KeyPair.generate (List.replicate 32 1)).sign [1, 2, 3]) = Except.ok () ∧
    verify_signature (KeyPair.generate (List.replicate 32 1)).public_key [1, 2, 3]
      ((KeyPair.generate (List.replicate 32 1)).sign [1, 2, 3]) = Except.ok () ∧
    (KeyPair.generate (List.replicate 32 1)).verify [9]
      ((KeyPair.generate (List.replicate 32 1)).sign [1, 2, 3]) =
      Except.error (SwarmhostError.Crypto "Verification failed: signature mismatch") :=
  sign_verify_round_trip (KeyPair.generate (List.replicate 32 1)) [1, 2, 3] [9]
    (by constructor <;> simp [KeyPair.generate]) (by simp)

/-- C8: reconstruction from any 32-byte buffer succeeds and yields the
keypair whose public key is the deterministic derivation of those bytes
and whose private bytes are the buffer itself; consequently, for every
well-formed keypair, reconstruction from its own private bytes succeeds
with the same public key. -/
theorem from_bytes_derivation (b : List Nat) (kp : KeyPair)
    (hb : b.length = 32) (hwf : kp.wf) :
    (∃ kpb, KeyPair.from_bytes b = Except.ok kpb ∧
      kpb.public_key = derive_public b ∧ kpb.private_key = b) ∧
    (∃ kp2, KeyPair.from_bytes kp.private_key = Except.ok kp2 ∧
      kp2.public_key = kp.public_key) := by
  refine ⟨⟨_, rfl, rfl, rfl⟩, ⟨_, rfl, ?_⟩⟩
  simp [KeyPair.from_bytes, KeyPair.public_key, KeyPair.private_key, hwf.2]

/-- Witness for C8 at a concrete buffer and a concrete keypair. -/
theorem from_bytes_derivation_witness :
    (∃ kpb, KeyPair.from_bytes (List.replicate 32 5) = Except.ok kpb ∧
      kpb.public_key = derive_public (List.replicate 32 5) ∧
      kpb.private_key = List.replicate 32 5) ∧
    (∃ kp2, KeyPair.from_bytes (KeyPair.generate (List.replicate 32 2)).private_key =
        Except.ok kp2 ∧
      kp2.public_key = (KeyPair.generate (List.replicate 32 2)).public_key) :=
  from_bytes_derivation (List.replicate 32 5) (KeyPair.generate (List.replicate 32 2))
    (by simp) (by constructor <;> simp [KeyPair.generate])

/-- Folding the hasher update over pieces accumulates their
concatenation after the initial buffer. -/
theorem foldl_update_eq_flatten (pieces : List (List Nat)) (acc : Blake2sState) :
    pieces.foldl Blake2sState.update acc = List.append acc pieces.flatten := by
  induction pieces generalizing acc with
  | nil => simp [Blake2sState.update]
  | cons p ps ih => simp [Blake2sState.update, ih, List.append_assoc]

/-- C6: for every ordered sequence of byte-sequence pieces, hash_multiple
of the pieces equals hash of their concatenation in the given order. -/
theorem hash_multiple_eq_hash_concat (pieces : List (List Nat)) :
    hash_multiple pieces = hash pieces.flatten := by
  unfold hash_multiple hash
  rw [foldl_update_eq_flatten]
  rfl

set_option maxRecDepth 100000 in
/-- C7: hash_multiple is order-sensitive at the pieces piece1, piece2,
piece3 (given as their ASCII bytes): the digest of the reversed order
differs from the digest of the original order. -/
theorem hash_multiple_order_sensitive :
    hash_multiple [[112, 105, 101, 99, 101, 49], [112, 105, 101, 99, 101, 50],
                   [112, 105, 101, 99, 101, 51]] ≠
    hash_multiple [[112, 105, 101, 99, 101, 51], [112, 105, 101, 99, 101, 50],
                   [112, 105, 101, 99, 101, 49]] := by
  decide

end Swarmhost
